import Mathlib

/-!
Shallow embedding of the muay-thai-coach technique-analysis core:
the pose metrics (`lib/pose/metrics.ts`), the scoring and feedback engine
(`lib/pose/scoring.ts`) and the calibration state machine of
`components/StickAvatar.tsx` (`CalibrationPhase.processFrame`).

JavaScript numbers are modelled as real numbers (`ℝ`); `Math.sqrt` is
`Real.sqrt`, `Math.atan2` is the complex argument, `Math.round` is
`⌊x + 1/2⌋` (which agrees with JS round-half-up on every real),
`Math.floor` on the loop-step computation is natural division.
Where IEEE special values (Infinity/NaN from division by zero) are
reachable in the source, the case split they induce on the subsequent
comparisons is written out explicitly, since Lean's real division
returns 0 at 0 (see `estimateViewAngle`).
-/

open scoped Classical

noncomputable section

namespace MuayThai

/-- One tracked body point, `NormalizedLandmark` in `lib/types`:
x, y, z coordinates plus an optional visibility confidence. -/
structure Landmark where
  x : ℝ
  y : ℝ
  z : ℝ
  visibility : Option ℝ

/-- A pose is the fixed 33-point MediaPipe landmark layout
(one frame's `landmarks` array; exactly 33 entries by contract). -/
abbrev Landmarks := Fin 33 → Landmark

/-- `PoseFrame` from `lib/types`: a millisecond timestamp plus the
33 landmarks detected at that instant. -/
structure PoseFrame where
  timestamp : ℝ
  landmarks : Landmarks

/- The landmark indices used by the core (`LANDMARK_INDICES` in
`lib/pose/pose.ts`). -/
namespace LANDMARK_INDICES

def NOSE : Fin 33 := 0
def LEFT_SHOULDER : Fin 33 := 11
def RIGHT_SHOULDER : Fin 33 := 12
def LEFT_ELBOW : Fin 33 := 13
def RIGHT_ELBOW : Fin 33 := 14
def LEFT_WRIST : Fin 33 := 15
def RIGHT_WRIST : Fin 33 := 16
def LEFT_HIP : Fin 33 := 23
def RIGHT_HIP : Fin 33 := 24
def LEFT_KNEE : Fin 33 := 25
def RIGHT_KNEE : Fin 33 := 26
def LEFT_ANKLE : Fin 33 := 27
def RIGHT_ANKLE : Fin 33 := 28

end LANDMARK_INDICES

/-- `Math.atan2 y x`, modelled as the argument of the complex number
`x + y·i`, which lies in `(-π, π]` and satisfies `atan2 0 0 = 0`
exactly as the JS builtin does. -/
def atan2 (y x : ℝ) : ℝ := Complex.arg ⟨x, y⟩

/-- `'left' | 'right'` side selector. -/
inductive Side
  | left
  | right

/-- `viewAngle : 'front' | 'three-quarter' | 'side'` from `lib/types`. -/
inductive ViewAngle
  | front
  | threeQuarter
  | side
deriving DecidableEq

/-- The fields of `CalibrationData` that the scoring engine reads
(`isGuardUp` reads `wearingGloves`, `generateFeedback` reads
`viewAngle`); the remaining fields (version, timestamp, stance,
baselineScale, baselineGuardHeight, framingQuality) are never
consulted by the functions under verification. -/
structure CalibrationData where
  wearingGloves : Bool
  viewAngle : ViewAngle

/-- `calculateAngle` from `lib/pose/metrics.ts`: angle at vertex `b`
between the rays to `a` and `c`, via an `atan2` difference converted to
degrees, absolute value, reflected into `[0,180]` when above 180. -/
def calculateAngle (a b c : Landmark) : ℝ :=
  let radians := atan2 (c.y - b.y) (c.x - b.x) - atan2 (a.y - b.y) (a.x - b.x)
  let angle := |radians * 180 / Real.pi|
  if angle > 180 then 360 - angle else angle

/-- `calculateDistance` from `lib/pose/metrics.ts`: 2D Euclidean
distance (z ignored). -/
def calculateDistance (a b : Landmark) : ℝ :=
  Real.sqrt ((b.x - a.x) ^ 2 + (b.y - a.y) ^ 2)

/-- `getElbowAngle`: shoulder → elbow → wrist angle for one side. -/
def getElbowAngle (landmarks : Landmarks) (side : Side) : ℝ :=
  match side with
  | .left =>
      calculateAngle (landmarks LANDMARK_INDICES.LEFT_SHOULDER)
        (landmarks LANDMARK_INDICES.LEFT_ELBOW)
        (landmarks LANDMARK_INDICES.LEFT_WRIST)
  | .right =>
      calculateAngle (landmarks LANDMARK_INDICES.RIGHT_SHOULDER)
        (landmarks LANDMARK_INDICES.RIGHT_ELBOW)
        (landmarks LANDMARK_INDICES.RIGHT_WRIST)

/-- `getKneeAngle`: hip → knee → ankle angle for one side. -/
def getKneeAngle (landmarks : Landmarks) (side : Side) : ℝ :=
  match side with
  | .left =>
      calculateAngle (landmarks LANDMARK_INDICES.LEFT_HIP)
        (landmarks LANDMARK_INDICES.LEFT_KNEE)
        (landmarks LANDMARK_INDICES.LEFT_ANKLE)
  | .right =>
      calculateAngle (landmarks LANDMARK_INDICES.RIGHT_HIP)
        (landmarks LANDMARK_INDICES.RIGHT_KNEE)
        (landmarks LANDMARK_INDICES.RIGHT_ANKLE)

/-- `getShoulderWidth`: distance between the two shoulder landmarks. -/
def getShoulderWidth (landmarks : Landmarks) : ℝ :=
  calculateDistance (landmarks LANDMARK_INDICES.LEFT_SHOULDER)
    (landmarks LANDMARK_INDICES.RIGHT_SHOULDER)

/-- `getHipWidth`: distance between the two hip landmarks. -/
def getHipWidth (landmarks : Landmarks) : ℝ :=
  calculateDistance (landmarks LANDMARK_INDICES.LEFT_HIP)
    (landmarks LANDMARK_INDICES.RIGHT_HIP)

/-- `getTorsoLength`: distance from the shoulder midpoint to the hip
midpoint (both constructed with `z = 0`, as in the source). -/
def getTorsoLength (landmarks : Landmarks) : ℝ :=
  let shoulderCenter : Landmark :=
    { x := ((landmarks LANDMARK_INDICES.LEFT_SHOULDER).x +
        (landmarks LANDMARK_INDICES.RIGHT_SHOULDER).x) / 2
      y := ((landmarks LANDMARK_INDICES.LEFT_SHOULDER).y +
        (landmarks LANDMARK_INDICES.RIGHT_SHOULDER).y) / 2
      z := 0
      visibility := none }
  let hipCenter : Landmark :=
    { x := ((landmarks LANDMARK_INDICES.LEFT_HIP).x +
        (landmarks LANDMARK_INDICES.RIGHT_HIP).x) / 2
      y := ((landmarks LANDMARK_INDICES.LEFT_HIP).y +
        (landmarks LANDMARK_INDICES.RIGHT_HIP).y) / 2
      z := 0
      visibility := none }
  calculateDistance shoulderCenter hipCenter

/-- `estimateViewAngle` from `lib/pose/metrics.ts`.  The source computes
`ratio = shoulderWidth / torsoLength` with no guard on a zero torso
length and then tests `ratio > 0.6 && zDiff < 0.1` (front) and
`ratio < 0.3 || zDiff > 0.2` (side).  Under IEEE arithmetic a zero
denominator yields `Infinity` when `shoulderWidth ≠ 0` (so `ratio > 0.6`
is true and `ratio < 0.3` is false) and `NaN` when both are zero (both
comparisons false); since Lean's real division returns 0 at 0, that case
split is written out explicitly here.  The `.z || 0` coercions in the
source are identities on real-valued z. -/
def estimateViewAngle (landmarks : Landmarks) : ViewAngle :=
  let shoulderWidth := getShoulderWidth landmarks
  let torsoLength := getTorsoLength landmarks
  let zDiff := |(landmarks LANDMARK_INDICES.LEFT_SHOULDER).z -
    (landmarks LANDMARK_INDICES.RIGHT_SHOULDER).z|
  if torsoLength = 0 then
    if shoulderWidth = 0 then
      -- ratio = NaN: every comparison on it is false
      if zDiff > 0.2 then .side else .threeQuarter
    else
      -- ratio = Infinity: `ratio > 0.6` holds, `ratio < 0.3` does not
      if zDiff < 0.1 then .front
      else if zDiff > 0.2 then .side
      else .threeQuarter
  else
    let ratio := shoulderWidth / torsoLength
    if ratio > 0.6 ∧ zDiff < 0.1 then .front
    else if ratio < 0.3 ∨ zDiff > 0.2 then .side
    else .threeQuarter

/-- Result record of `isGuardUp`. -/
structure GuardResult where
  score : ℝ
  leftUp : Prop
  rightUp : Prop

/-- `isGuardUp` from `lib/pose/metrics.ts`: a wrist counts as up when it
is above mid-chest, above `nose.y + 0.1`, and within `0.3` of the nose
horizontally; 50 points per up wrist plus a 10-point bonus per wrist
within the glove-adjusted tolerance of the optimal height, capped
at 100. -/
def isGuardUp (landmarks : Landmarks) (calibration : Option CalibrationData) :
    GuardResult :=
  let nose := landmarks LANDMARK_INDICES.NOSE
  let leftWrist := landmarks LANDMARK_INDICES.LEFT_WRIST
  let rightWrist := landmarks LANDMARK_INDICES.RIGHT_WRIST
  let leftShoulder := landmarks LANDMARK_INDICES.LEFT_SHOULDER
  let rightShoulder := landmarks LANDMARK_INDICES.RIGHT_SHOULDER
  let midChestY := (leftShoulder.y + rightShoulder.y) / 2
  let faceRegionBottom := nose.y + 0.1
  -- `calibration?.wearingGloves ? 0.15 : 0.1`
  let threshold : ℝ :=
    match calibration with
    | some c => if c.wearingGloves then 0.15 else 0.1
    | none => 0.1
  let leftUp :=
    leftWrist.y < midChestY ∧ leftWrist.y < faceRegionBottom ∧
      |leftWrist.x - nose.x| < 0.3
  let rightUp :=
    rightWrist.y < midChestY ∧ rightWrist.y < faceRegionBottom ∧
      |rightWrist.x - nose.x| < 0.3
  let optimalHeight := nose.y - 0.05
  let score : ℝ :=
    (if leftUp then 50 else 0) + (if rightUp then 50 else 0) +
      (if leftUp ∧ |leftWrist.y - optimalHeight| < threshold then 10 else 0) +
      (if rightUp ∧ |rightWrist.y - optimalHeight| < threshold then 10 else 0)
  { score := min 100 score, leftUp := leftUp, rightUp := rightUp }

/-- Hip-center (x, y) of one frame, as extracted inside
`calculateStability`. -/
def hipCenter (landmarks : Landmarks) : ℝ × ℝ :=
  (((landmarks LANDMARK_INDICES.LEFT_HIP).x +
      (landmarks LANDMARK_INDICES.RIGHT_HIP).x) / 2,
    ((landmarks LANDMARK_INDICES.LEFT_HIP).y +
      (landmarks LANDMARK_INDICES.RIGHT_HIP).y) / 2)

/-- The combined population variance of the hip-center positions of a
frame list (sum of squared x- and y-deviations over the count), exactly
the `variance` local of `calculateStability`. -/
def hipVariance (frames : List Landmarks) : ℝ :=
  let hipPositions := frames.map hipCenter
  let meanX := (hipPositions.map Prod.fst).sum / hipPositions.length
  let meanY := (hipPositions.map Prod.snd).sum / hipPositions.length
  (hipPositions.map (fun p => (p.1 - meanX) ^ 2 + (p.2 - meanY) ^ 2)).sum /
    hipPositions.length

/-- `calculateStability` from `lib/pose/metrics.ts`: 100 for fewer than
two frames, otherwise `min 100 (max 0 (100 − variance·5000))` over the
hip-center variance. -/
def calculateStability (frames : List Landmarks) : ℝ :=
  if frames.length < 2 then 100
  else min 100 (max 0 (100 - hipVariance frames * 5000))

/-- Result record of `detectPunchExtension`. -/
structure PunchExtension where
  isExtended : Prop
  angle : ℝ

/-- `detectPunchExtension`: the elbow angle of the given side, extended
when at least 155 degrees. -/
def detectPunchExtension (landmarks : Landmarks) (side : Side) :
    PunchExtension :=
  let angle := getElbowAngle landmarks side
  { isExtended := angle ≥ 155, angle := angle }

/-- Result record of `detectKneeLift`. -/
structure KneeLift where
  isLifted : Prop
  height : ℝ

/-- `detectKneeLift`: knee at or above hip level in image space
(`hip.y − knee.y > 0`). -/
def detectKneeLift (landmarks : Landmarks) (side : Side) : KneeLift :=
  let hip := landmarks
    (match side with
      | .left => LANDMARK_INDICES.LEFT_HIP
      | .right => LANDMARK_INDICES.RIGHT_HIP)
  let knee := landmarks
    (match side with
      | .left => LANDMARK_INDICES.LEFT_KNEE
      | .right => LANDMARK_INDICES.RIGHT_KNEE)
  let height := hip.y - knee.y
  { isLifted := height > 0, height := height }

/-- `FramingQuality` record from `lib/types`. -/
structure FramingQuality where
  headVisible : Prop
  hipsVisible : Prop
  anklesVisible : Prop
  overallScore : ℝ

/-- `checkFramingQuality`: visibility threshold 0.3 (an absent
visibility counts as 0, the `|| 0` coercion of the source);
`overallScore = 40·head + 40·hips + 20·ankles`. -/
def checkFramingQuality (landmarks : Landmarks) : FramingQuality :=
  let threshold : ℝ := 0.3
  let headVisible :=
    (landmarks LANDMARK_INDICES.NOSE).visibility.getD 0 > threshold
  let hipsVisible :=
    (landmarks LANDMARK_INDICES.LEFT_HIP).visibility.getD 0 > threshold ∧
      (landmarks LANDMARK_INDICES.RIGHT_HIP).visibility.getD 0 > threshold
  let anklesVisible :=
    (landmarks LANDMARK_INDICES.LEFT_ANKLE).visibility.getD 0 > threshold ∧
      (landmarks LANDMARK_INDICES.RIGHT_ANKLE).visibility.getD 0 > threshold
  { headVisible := headVisible
    hipsVisible := hipsVisible
    anklesVisible := anklesVisible
    overallScore :=
      (if headVisible then 40 else 0) + (if hipsVisible then 40 else 0) +
        (if anklesVisible then 20 else 0) }

/-- `Math.round`: `⌊x + 1/2⌋`, which is round-half-up on every real
number, exactly the JS builtin's behaviour. -/
def jsRound (x : ℝ) : ℤ := ⌊x + 1 / 2⌋

/-- All-zero landmark frame, used as the (never consulted) fallback of
list indexing; every index the sampling loop produces is in range. -/
def defaultLandmarks : Landmarks := fun _ => { x := 0, y := 0, z := 0, visibility := none }

/-- The step of the guard-sampling loop in `calculateGuardScore`:
`sampleCount = min(20, n)`, `step = Math.floor(n / sampleCount)`
(natural-number division). -/
def guardStep (n : ℕ) : ℕ := n / min 20 n

/-- The frame indices visited by `for (let i = 0; i < n; i += step)`:
the multiples `k·step` for `k < ⌈n / step⌉` (for `step ≥ 1`, which the
caller guarantees since `n ≥ min 20 n ≥ 1` there). -/
def guardSampleIndices (n step : ℕ) : List ℕ :=
  (List.range ((n + step - 1) / step)).map (· * step)

/-- `calculateGuardScore` (0–25) from `lib/pose/scoring.ts`: 0 for the
empty list, otherwise the average `isGuardUp` score over the sampled
frames, divided by 100 and scaled by 25.  `samples` counts the loop
iterations, i.e. the length of the index list. -/
def calculateGuardScore (landmarksArray : List Landmarks)
    (calibration : Option CalibrationData) : ℝ :=
  if landmarksArray.length = 0 then 0
  else
    let step := guardStep landmarksArray.length
    let idxs := guardSampleIndices landmarksArray.length step
    let totalScore := (idxs.map (fun i =>
      (isGuardUp (landmarksArray.getD i defaultLandmarks) calibration).score)).sum
    let samples : ℕ := idxs.length
    totalScore / samples / 100 * 25

/-- `calculateStabilityScore` (0–20): fixed default 10 under five
frames, otherwise `calculateStability` rescaled from 0–100 to 0–20. -/
def calculateStabilityScore (landmarksArray : List Landmarks) : ℝ :=
  if landmarksArray.length < 5 then 10
  else calculateStability landmarksArray / 100 * 20

/-- `calculateExecutionScore` (0–40): default 20 under five frames;
otherwise per active move-type class the fraction of frames where a
side's detector fires is banded into credit 20/10/0, and the summed
credit is rescaled by `min(40, score/(checks·20)·40)`; 25 when no
check applies. -/
def calculateExecutionScore (landmarksArray : List Landmarks)
    (moveTypes : List String) : ℝ :=
  if landmarksArray.length < 5 then 20
  else
    let punchPart : ℝ × ℕ :=
      if moveTypes.contains "punch" then
        let punchExtensions := landmarksArray.countP (fun lm =>
          decide ((detectPunchExtension lm .left).isExtended ∨
            (detectPunchExtension lm .right).isExtended))
        let extensionRatio : ℝ := (punchExtensions : ℝ) / landmarksArray.length
        ((if extensionRatio > 0.1 ∧ extensionRatio < 0.5 then 20
          else if extensionRatio > 0.05 then 10 else 0), 1)
      else (0, 0)
    let kneePart : ℝ × ℕ :=
      if moveTypes.contains "kick" || moveTypes.contains "knee" then
        let kneeLiftCount := landmarksArray.countP (fun lm =>
          decide ((detectKneeLift lm .left).isLifted ∨
            (detectKneeLift lm .right).isLifted))
        let liftRatio : ℝ := (kneeLiftCount : ℝ) / landmarksArray.length
        ((if liftRatio > 0.05 ∧ liftRatio < 0.4 then 20
          else if liftRatio > 0.02 then 10 else 0), 1)
      else (0, 0)
    let score := punchPart.1 + kneePart.1
    let checks := punchPart.2 + kneePart.2
    if checks = 0 then 25
    else min 40 (score / ((checks : ℝ) * 20) * 40)

/-- The total landmark displacement between two consecutive frames
(`totalMovement` in `calculateTimingScore`): the sum over all 33
landmarks of `Math.sqrt(dx*dx + dy*dy)`. -/
def frameMovement (prev curr : Landmarks) : ℝ :=
  ∑ j : Fin 33,
    Real.sqrt (((curr j).x - (prev j).x) * ((curr j).x - (prev j).x) +
      ((curr j).y - (prev j).y) * ((curr j).y - (prev j).y))

/-- The per-adjacent-pair movement series of `calculateTimingScore`
(`movements` there: index `i ≥ 1` pairs frame `i−1` with frame `i`). -/
def movementSeries (landmarksArray : List Landmarks) : List ℝ :=
  List.zipWith frameMovement landmarksArray landmarksArray.tail

/-- `calculateTimingScore` (0–15): default 8 under five frames;
otherwise 15/10/5 by banding the mean and variance of the movement
series. -/
def calculateTimingScore (landmarksArray : List Landmarks)
    (frames : List PoseFrame) : ℝ :=
  if frames.length < 5 then 8
  else
    let ms := movementSeries landmarksArray
    let avgMovement := ms.sum / (ms.length : ℝ)
    let variance := (ms.map (fun m => (m - avgMovement) ^ 2)).sum / (ms.length : ℝ)
    if avgMovement > 0.01 ∧ avgMovement < 0.2 ∧ variance < 0.01 then 15
    else if avgMovement > 0.005 ∧ variance < 0.02 then 10
    else 5

/-- The four unrounded subscores handed to `generateFeedback`. -/
structure Subscores where
  guard : ℝ
  stability : ℝ
  execution : ℝ
  timing : ℝ

/-- The three feedback lists returned by `generateFeedback`. -/
structure Feedback where
  strengths : List String
  improvements : List String
  warnings : List String

/-- `ScoringContext` from `lib/pose/scoring.ts`. -/
structure ScoringContext where
  calibration : Option CalibrationData
  comboMoveTypes : List String

/-- `generateFeedback` from `lib/pose/scoring.ts`.  Each axis pushes at
most one strength (in its `if` branch) or one improvement (in its
`else if` branch), in the fixed order guard, stability, execution,
timing; the `> 70` general strength follows; warnings for low frame
count, poor last-frame framing, and a sideways calibration view angle;
then the fallback "good form" strength when none was produced, the
fallback "return faster" improvement when none was produced and the
subscore sum is below 80, and each list is truncated to three. -/
def generateFeedback (scores : Subscores) (frames : List PoseFrame)
    (context : ScoringContext) : Feedback :=
  let guardFb : List String × List String :=
    if scores.guard ≥ 20 then (["feedback.strengths.goodGuard"], [])
    else if scores.guard < 15 then ([], ["feedback.improvements.raiseGuard"])
    else ([], [])
  let stabilityFb : List String × List String :=
    if scores.stability ≥ 16 then (["feedback.strengths.stableBase"], [])
    else if scores.stability < 10 then ([], ["feedback.improvements.stayBalanced"])
    else ([], [])
  let executionFb : List String × List String :=
    if scores.execution ≥ 32 then (["feedback.strengths.goodExtension"], [])
    else if scores.execution < 20 then ([], ["feedback.improvements.extendMore"])
    else ([], [])
  let timingFb : List String × List String :=
    if scores.timing ≥ 12 then (["feedback.strengths.goodTiming"], [])
    else if scores.timing < 8 then ([], ["feedback.improvements.improveFlow"])
    else ([], [])
  let total := scores.guard + scores.stability + scores.execution + scores.timing
  let strengths0 :=
    guardFb.1 ++ stabilityFb.1 ++ executionFb.1 ++ timingFb.1 ++
      (if total > 70 then ["feedback.strengths.goodForm"] else [])
  let improvements0 := guardFb.2 ++ stabilityFb.2 ++ executionFb.2 ++ timingFb.2
  let warnings0 :=
    (if frames.length < 50 then ["feedback.warnings.lowFrameCount"] else []) ++
      (match frames.getLast? with
        | some f =>
            if (checkFramingQuality f.landmarks).overallScore < 60 then
              ["feedback.warnings.poorFraming"]
            else []
        | none => []) ++
      (match context.calibration with
        | some c =>
            if c.viewAngle = ViewAngle.side then
              ["feedback.warnings.sidewaysView"]
            else []
        | none => [])
  let strengths1 :=
    if strengths0 = [] then ["feedback.strengths.goodForm"] else strengths0
  let improvements1 :=
    if improvements0 = [] ∧ total < 80 then ["feedback.improvements.returnFaster"]
    else improvements0
  { strengths := strengths1.take 3
    improvements := improvements1.take 3
    warnings := warnings0.take 3 }

/-- `SessionScore` from `lib/types`: the rounded subscores, the capped
overall, and the three feedback lists. -/
structure SessionScore where
  overall : ℤ
  guard : ℤ
  stability : ℤ
  execution : ℤ
  timing : ℤ
  strengths : List String
  improvements : List String
  warnings : List String

/-- `AnalysisResult` from `lib/types`. -/
structure AnalysisResult where
  frameCount : ℕ
  duration : ℝ
  score : SessionScore
  frames : List PoseFrame

/-- `generateScore` from `lib/pose/scoring.ts`: duration is the last
frame's timestamp (0 for no frames); the four subscores are computed
unrounded; overall is `min(100, round(sum))`; each reported subscore is
rounded individually. -/
def generateScore (frames : List PoseFrame) (context : ScoringContext) :
    AnalysisResult :=
  let duration :=
    match frames.getLast? with
    | some f => f.timestamp
    | none => 0
  let landmarksArray := frames.map (·.landmarks)
  let guardScore := calculateGuardScore landmarksArray context.calibration
  let stabilityScore := calculateStabilityScore landmarksArray
  let executionScore := calculateExecutionScore landmarksArray context.comboMoveTypes
  let timingScore := calculateTimingScore landmarksArray frames
  let overall := jsRound (guardScore + stabilityScore + executionScore + timingScore)
  let fb := generateFeedback
    { guard := guardScore, stability := stabilityScore,
      execution := executionScore, timing := timingScore } frames context
  { frameCount := frames.length
    duration := duration
    score :=
      { overall := min 100 overall
        guard := jsRound guardScore
        stability := jsRound stabilityScore
        execution := jsRound executionScore
        timing := jsRound timingScore
        strengths := fb.strengths
        improvements := fb.improvements
        warnings := fb.warnings }
    frames := frames }

/- Calibration state machine of `components/StickAvatar.tsx`
(`CalibrationPhase`): one cooperative tick (`processFrame`) pushes the
frame's shoulder width into a rolling buffer of at most 30 samples and
drives the detecting → holding → confirm cycle. -/
namespace CalibrationPhase

/-- `CalibrationStep`: `'detecting' | 'holding' | 'confirm'`. -/
inductive CalibrationStep
  | detecting
  | holding
  | confirm
deriving DecidableEq

/-- `HOLD_DURATION = 3000` ms. -/
def HOLD_DURATION : ℝ := 3000

/-- `STABILITY_THRESHOLD = 0.02`. -/
def STABILITY_THRESHOLD : ℝ := 0.02

/-- The component state a tick reads and writes: the step, the rolling
shoulder-width buffer, the hold-start instant, the hold progress, and
the captured baseline values and view angle. -/
structure CalibState where
  step : CalibrationStep
  stabilityBuffer : List ℝ
  holdStartTime : Option ℝ
  holdProgress : ℝ
  baselineScale : ℝ
  baselineGuardHeight : ℝ
  viewAngle : ViewAngle

/-- Push one sample: append, then `shift()` the oldest entry away when
the buffer exceeds 30 entries. -/
def calibPush (buffer : List ℝ) (sample : ℝ) : List ℝ :=
  let b := buffer ++ [sample]
  if b.length > 30 then b.tail else b

/-- The rolling mean (`avg` in the tick). -/
def calibMean (buffer : List ℝ) : ℝ := buffer.sum / (buffer.length : ℝ)

/-- The rolling population variance (`variance` in the tick). -/
def calibVariance (buffer : List ℝ) : ℝ :=
  (buffer.map (fun v => (v - calibMean buffer) ^ 2)).sum / (buffer.length : ℝ)

/-- One tick of the calibration loop, for a frame in which landmarks
were detected: the stability-tracking and state-transition section of
`CalibrationPhase.processFrame` (`now` is `performance.now()`).
The variance test only runs once the buffer has at least 10 samples;
`elapsed` reads the hold start through `|| 0` (`Option.getD 0`). -/
def processFrame (s : CalibState) (landmarks : Landmarks) (now : ℝ) :
    CalibState :=
  let shoulderWidth := getShoulderWidth landmarks
  let buffer := calibPush s.stabilityBuffer shoulderWidth
  if buffer.length ≥ 10 then
    let avg := calibMean buffer
    let variance := calibVariance buffer
    let isStable := variance < STABILITY_THRESHOLD
    if isStable ∧ s.step = .detecting then
      { s with
        step := .holding
        stabilityBuffer := buffer
        holdStartTime := some now }
    else if isStable ∧ s.step = .holding then
      let elapsed := now - s.holdStartTime.getD 0
      let progress := min 100 (elapsed / HOLD_DURATION * 100)
      if elapsed ≥ HOLD_DURATION then
        { step := .confirm
          stabilityBuffer := buffer
          holdStartTime := s.holdStartTime
          holdProgress := progress
          baselineScale := avg
          baselineGuardHeight := (landmarks LANDMARK_INDICES.NOSE).y -
            (((landmarks LANDMARK_INDICES.LEFT_WRIST).y +
              (landmarks LANDMARK_INDICES.RIGHT_WRIST).y) / 2)
          viewAngle := estimateViewAngle landmarks }
      else
        { s with stabilityBuffer := buffer, holdProgress := progress }
    else if ¬isStable ∧ s.step = .holding then
      { s with
        step := .detecting
        stabilityBuffer := buffer
        holdProgress := 0
        holdStartTime := none }
    else
      { s with stabilityBuffer := buffer }
  else
    { s with stabilityBuffer := buffer }

end CalibrationPhase

/-! ### Concrete inputs used by witnesses and counterexamples -/

/-- A scoring context with no calibration and no move types. -/
def ctx0 : ScoringContext := { calibration := none, comboMoveTypes := [] }

/-- A neutral standing pose: nose at (0.5, 0.3), shoulders at
(0.6, 0.5)/(0.4, 0.5), wrists down at (0.5, 0.9), hips at
(0.55, 0.8)/(0.45, 0.8), every other landmark at (0.5, 0.5). -/
def baseLm : Landmarks := fun i =>
  if i = LANDMARK_INDICES.NOSE then { x := 0.5, y := 0.3, z := 0, visibility := none }
  else if i = LANDMARK_INDICES.LEFT_SHOULDER then { x := 0.6, y := 0.5, z := 0, visibility := none }
  else if i = LANDMARK_INDICES.RIGHT_SHOULDER then { x := 0.4, y := 0.5, z := 0, visibility := none }
  else if i = LANDMARK_INDICES.LEFT_WRIST then { x := 0.5, y := 0.9, z := 0, visibility := none }
  else if i = LANDMARK_INDICES.RIGHT_WRIST then { x := 0.5, y := 0.9, z := 0, visibility := none }
  else if i = LANDMARK_INDICES.LEFT_HIP then { x := 0.55, y := 0.8, z := 0, visibility := none }
  else if i = LANDMARK_INDICES.RIGHT_HIP then { x := 0.45, y := 0.8, z := 0, visibility := none }
  else { x := 0.5, y := 0.5, z := 0, visibility := none }

/-- `baseLm` with the left wrist raised to (0.5, 0.1): the left-wrist
guard predicate holds without the optimal-height bonus. -/
def guardLm : Landmarks := fun i =>
  if i = LANDMARK_INDICES.LEFT_WRIST then { x := 0.5, y := 0.1, z := 0, visibility := none }
  else baseLm i

/-- `baseLm` with the left hip nudged to (0.55, 0.82), moving the hip
center up by 0.01. -/
def hipLm : Landmarks := fun i =>
  if i = LANDMARK_INDICES.LEFT_HIP then { x := 0.55, y := 0.82, z := 0, visibility := none }
  else baseLm i

/-- Five frames: static, static, guard up, static, hip shifted. -/
def c10Frames : List PoseFrame :=
  [ { timestamp := 0, landmarks := baseLm },
    { timestamp := 100, landmarks := baseLm },
    { timestamp := 200, landmarks := guardLm },
    { timestamp := 300, landmarks := baseLm },
    { timestamp := 400, landmarks := hipLm } ]

/-- `baseLm` with both hips lifted onto the shoulder midline
(0.55, 0.5)/(0.45, 0.5): the torso length is exactly zero while the
shoulder width stays 0.2. -/
def zeroTorsoLm : Landmarks := fun i =>
  if i = LANDMARK_INDICES.LEFT_HIP then { x := 0.55, y := 0.5, z := 0, visibility := none }
  else if i = LANDMARK_INDICES.RIGHT_HIP then { x := 0.45, y := 0.5, z := 0, visibility := none }
  else baseLm i

/-- `zeroTorsoLm` with the right shoulder pushed to depth `z = 0.3`,
so `zDiff = 0.3 > 0.2`. -/
def zeroTorsoSideLm : Landmarks := fun i =>
  if i = LANDMARK_INDICES.RIGHT_SHOULDER then { x := 0.4, y := 0.5, z := 0.3, visibility := none }
  else zeroTorsoLm i

/-- A nine-sample constant shoulder-width buffer (one sample short of
the ten the variance check requires). -/
def calibBuf9 : List ℝ := List.replicate 9 0.2

/-- A calibration state still in `detecting`, with `calibBuf9`. -/
def sDetecting : CalibrationPhase.CalibState :=
  { step := .detecting, stabilityBuffer := calibBuf9, holdStartTime := none,
    holdProgress := 0, baselineScale := 0, baselineGuardHeight := 0,
    viewAngle := .front }

/-- A ten-sample constant shoulder-width buffer. -/
def calibBuf10 : List ℝ := List.replicate 10 0.2

/-- A calibration state in `holding` since instant 0, with `calibBuf10`. -/
def sHolding : CalibrationPhase.CalibState :=
  { step := .holding, stabilityBuffer := calibBuf10, holdStartTime := some 0,
    holdProgress := 0, baselineScale := 0, baselineGuardHeight := 0,
    viewAngle := .front }

/-! ### Helper lemmas -/

/-- `atan2` always lies in `(-π, π]`, like the complex argument. -/
lemma atan2_le_pi (y x : ℝ) : atan2 y x ≤ Real.pi :=
  Complex.arg_le_pi _

lemma neg_pi_lt_atan2 (y x : ℝ) : -Real.pi < atan2 y x :=
  Complex.neg_pi_lt_arg _

/-- A difference of two `atan2` values is strictly within `(-2π, 2π)`. -/
lemma abs_atan2_sub_lt (y1 x1 y2 x2 : ℝ) :
    |atan2 y1 x1 - atan2 y2 x2| < 2 * Real.pi := by
  have h1 := atan2_le_pi y1 x1
  have h2 := neg_pi_lt_atan2 y1 x1
  have h3 := atan2_le_pi y2 x2
  have h4 := neg_pi_lt_atan2 y2 x2
  rw [abs_sub_lt_iff]
  constructor <;> linarith

/-- `calculateAngle` unfolded to its branch expression. -/
lemma calculateAngle_eq (a b c : Landmark) :
    calculateAngle a b c =
      if |(atan2 (c.y - b.y) (c.x - b.x) - atan2 (a.y - b.y) (a.x - b.x)) *
          180 / Real.pi| > 180 then
        360 - |(atan2 (c.y - b.y) (c.x - b.x) - atan2 (a.y - b.y) (a.x - b.x)) *
          180 / Real.pi|
      else
        |(atan2 (c.y - b.y) (c.x - b.x) - atan2 (a.y - b.y) (a.x - b.x)) *
          180 / Real.pi| := rfl

/-- Truncation to three entries caps the length at 3. -/
lemma length_take_le_three {α : Type} (l : List α) : (l.take 3).length ≤ 3 := by
  rw [List.length_take]
  exact min_le_left _ _

/-- Truncation to three entries of a non-empty list is non-empty. -/
lemma take_three_ne_nil {α : Type} (l : List α) (h : l ≠ []) : l.take 3 ≠ [] := by
  cases l with
  | nil => exact absurd rfl h
  | cons a t => simp

/-- Truncating the fallback-completed list is non-empty whenever the
fallback is. -/
lemma take_three_fallback_ne_nil (l fb : List String) (hfb : fb ≠ []) :
    ((if l = [] then fb else l).take 3) ≠ [] := by
  split
  · exact take_three_ne_nil _ hfb
  · exact take_three_ne_nil _ (by assumption)

/-- The hip-center population variance is non-negative. -/
lemma hipVariance_nonneg (frames : List Landmarks) : 0 ≤ hipVariance frames := by
  unfold hipVariance
  dsimp only
  apply div_nonneg
  · apply List.sum_nonneg
    intro x hx
    simp only [List.mem_map] at hx
    obtain ⟨p, _, rfl⟩ := hx
    positivity
  · positivity

/-- With fewer than two frames the hip-center variance vanishes (for a
single frame the sole deviation is zero; for no frames both sums are
zero). -/
lemma hipVariance_short (frames : List Landmarks) (h : frames.length < 2) :
    hipVariance frames = 0 := by
  match frames with
  | [] => simp [hipVariance]
  | [a] => simp [hipVariance]
  | a :: b :: t =>
    simp only [List.length_cons] at h
    omega

/-- The stability primitive never exceeds 100. -/
lemma calculateStability_le_100 (frames : List Landmarks) :
    calculateStability frames ≤ 100 := by
  unfold calculateStability
  split
  · exact le_refl _
  · exact min_le_left _ _

/-- The stability primitive is non-negative. -/
lemma calculateStability_nonneg (frames : List Landmarks) :
    0 ≤ calculateStability frames := by
  unfold calculateStability
  split
  · norm_num
  · exact le_min (by norm_num) (le_max_left _ _)

/-- A per-frame guard score lies in `[0, 100]`. -/
lemma isGuardUp_score_bounds (lm : Landmarks) (cal : Option CalibrationData) :
    0 ≤ (isGuardUp lm cal).score ∧ (isGuardUp lm cal).score ≤ 100 := by
  unfold isGuardUp
  dsimp only
  refine ⟨le_min (by norm_num) ?_, min_le_left _ _⟩
  split_ifs <;> norm_num

/-- The guard subscore always lies in `[0, 25]`. -/
lemma calculateGuardScore_bounds (arr : List Landmarks)
    (cal : Option CalibrationData) :
    0 ≤ calculateGuardScore arr cal ∧ calculateGuardScore arr cal ≤ 25 := by
  unfold calculateGuardScore
  split
  · norm_num
  · dsimp only
    set idxs := guardSampleIndices arr.length (guardStep arr.length) with hidxs
    set T := (idxs.map
      (fun i => (isGuardUp (arr.getD i defaultLandmarks) cal).score)).sum with hT
    have hT0 : 0 ≤ T := by
      rw [hT]
      apply List.sum_nonneg
      intro x hx
      simp only [List.mem_map] at hx
      obtain ⟨i, _, rfl⟩ := hx
      exact (isGuardUp_score_bounds _ _).1
    have hTle : T ≤ (idxs.length : ℝ) * 100 := by
      rw [hT]
      have hb := List.sum_le_card_nsmul (idxs.map
        (fun i => (isGuardUp (arr.getD i defaultLandmarks) cal).score)) 100 ?side
      case side =>
        intro x hx
        simp only [List.mem_map] at hx
        obtain ⟨i, _, rfl⟩ := hx
        exact (isGuardUp_score_bounds _ _).2
      simpa [List.length_map, nsmul_eq_mul] using hb
    constructor
    · apply mul_nonneg _ (by norm_num)
      apply div_nonneg _ (by norm_num)
      exact div_nonneg hT0 (Nat.cast_nonneg _)
    · by_cases hk : (idxs.length : ℝ) = 0
      · rw [hk, div_zero]
        norm_num
      · have hkpos : (0 : ℝ) < idxs.length :=
          lt_of_le_of_ne (Nat.cast_nonneg _) (Ne.symm hk)
        have hdiv : T / (idxs.length : ℝ) ≤ 100 := by
          rw [div_le_iff₀ hkpos]
          linarith
        have hdiv0 : 0 ≤ T / (idxs.length : ℝ) :=
          div_nonneg hT0 (Nat.cast_nonneg _)
        set Q := T / (idxs.length : ℝ)
        linarith

/-- Evaluate a square root at a recognised perfect square. -/
lemma sqrt_eval {a b : ℝ} (hb : 0 ≤ b) (h : a = b ^ 2) : Real.sqrt a = b := by
  rw [h, Real.sqrt_sq hb]

/-- The zero-torso pose really has torso length 0. -/
lemma zeroTorso_torsoLength : getTorsoLength zeroTorsoLm = 0 := by
  have h1 : zeroTorsoLm LANDMARK_INDICES.LEFT_SHOULDER =
      { x := 0.6, y := 0.5, z := 0, visibility := none } := rfl
  have h2 : zeroTorsoLm LANDMARK_INDICES.RIGHT_SHOULDER =
      { x := 0.4, y := 0.5, z := 0, visibility := none } := rfl
  have h3 : zeroTorsoLm LANDMARK_INDICES.LEFT_HIP =
      { x := 0.55, y := 0.5, z := 0, visibility := none } := rfl
  have h4 : zeroTorsoLm LANDMARK_INDICES.RIGHT_HIP =
      { x := 0.45, y := 0.5, z := 0, visibility := none } := rfl
  simp only [getTorsoLength, calculateDistance, h1, h2, h3, h4]
  norm_num [Real.sqrt_zero]

/-- So does its depth-shifted variant. -/
lemma zeroTorsoSide_torsoLength : getTorsoLength zeroTorsoSideLm = 0 := by
  have h1 : zeroTorsoSideLm LANDMARK_INDICES.LEFT_SHOULDER =
      { x := 0.6, y := 0.5, z := 0, visibility := none } := rfl
  have h2 : zeroTorsoSideLm LANDMARK_INDICES.RIGHT_SHOULDER =
      { x := 0.4, y := 0.5, z := 0.3, visibility := none } := rfl
  have h3 : zeroTorsoSideLm LANDMARK_INDICES.LEFT_HIP =
      { x := 0.55, y := 0.5, z := 0, visibility := none } := rfl
  have h4 : zeroTorsoSideLm LANDMARK_INDICES.RIGHT_HIP =
      { x := 0.45, y := 0.5, z := 0, visibility := none } := rfl
  simp only [getTorsoLength, calculateDistance, h1, h2, h3, h4]
  norm_num [Real.sqrt_zero]

/-- The zero-torso pose keeps shoulder width 0.2. -/
lemma zeroTorso_shoulderWidth : getShoulderWidth zeroTorsoLm = 0.2 := by
  have h1 : zeroTorsoLm LANDMARK_INDICES.LEFT_SHOULDER =
      { x := 0.6, y := 0.5, z := 0, visibility := none } := rfl
  have h2 : zeroTorsoLm LANDMARK_INDICES.RIGHT_SHOULDER =
      { x := 0.4, y := 0.5, z := 0, visibility := none } := rfl
  simp only [getShoulderWidth, calculateDistance, h1, h2]
  exact sqrt_eval (by norm_num) (by norm_num)

/-- So does its depth-shifted variant (z is ignored by the width). -/
lemma zeroTorsoSide_shoulderWidth : getShoulderWidth zeroTorsoSideLm = 0.2 := by
  have h1 : zeroTorsoSideLm LANDMARK_INDICES.LEFT_SHOULDER =
      { x := 0.6, y := 0.5, z := 0, visibility := none } := rfl
  have h2 : zeroTorsoSideLm LANDMARK_INDICES.RIGHT_SHOULDER =
      { x := 0.4, y := 0.5, z := 0.3, visibility := none } := rfl
  simp only [getShoulderWidth, calculateDistance, h1, h2]
  exact sqrt_eval (by norm_num) (by norm_num)

/-- `jsRound` evaluated via the floor characterisation. -/
lemma jsRound_eq (x : ℝ) (n : ℤ) (h1 : (n : ℝ) ≤ x + 1 / 2)
    (h2 : x + 1 / 2 < n + 1) : jsRound x = n := by
  rw [jsRound]
  exact Int.floor_eq_iff.mpr ⟨h1, h2⟩

/-- `jsRound` never decreases a non-negative argument below zero. -/
lemma jsRound_nonneg (x : ℝ) (h : 0 ≤ x) : 0 ≤ jsRound x := by
  rw [jsRound]
  rw [Int.le_floor]
  push_cast
  linarith

/-- Guard subscore of the empty attempt. -/
lemma calculateGuardScore_nil (cal : Option CalibrationData) :
    calculateGuardScore [] cal = 0 := by
  simp [calculateGuardScore]

/-- Stability subscore default for the empty attempt. -/
lemma calculateStabilityScore_nil : calculateStabilityScore [] = 10 := by
  simp [calculateStabilityScore]

/-- Execution subscore default for the empty attempt. -/
lemma calculateExecutionScore_nil (mt : List String) :
    calculateExecutionScore [] mt = 20 := by
  simp [calculateExecutionScore]

/-- Timing subscore default for the empty attempt. -/
lemma calculateTimingScore_nil : calculateTimingScore [] [] = 8 := by
  simp [calculateTimingScore]

/-- Full evaluation of `generateScore` on the empty frame list. -/
lemma generateScore_nil (ctx : ScoringContext) :
    (generateScore [] ctx).frameCount = 0 ∧
      (generateScore [] ctx).duration = 0 ∧
      (generateScore [] ctx).score.guard = 0 ∧
      (generateScore [] ctx).score.stability = 10 ∧
      (generateScore [] ctx).score.execution = 20 ∧
      (generateScore [] ctx).score.timing = 8 ∧
      (generateScore [] ctx).score.overall = 38 := by
  have hg := calculateGuardScore_nil ctx.calibration
  have hs := calculateStabilityScore_nil
  have he := calculateExecutionScore_nil ctx.comboMoveTypes
  have ht := calculateTimingScore_nil
  refine ⟨rfl, rfl, ?_, ?_, ?_, ?_, ?_⟩
  · show jsRound (calculateGuardScore [] ctx.calibration) = 0
    rw [hg]
    exact jsRound_eq 0 0 (by norm_num) (by norm_num)
  · show jsRound (calculateStabilityScore []) = 10
    rw [hs]
    exact jsRound_eq 10 10 (by norm_num) (by norm_num)
  · show jsRound (calculateExecutionScore [] ctx.comboMoveTypes) = 20
    rw [he]
    exact jsRound_eq 20 20 (by norm_num) (by norm_num)
  · show jsRound (calculateTimingScore [] []) = 8
    rw [ht]
    exact jsRound_eq 8 8 (by norm_num) (by norm_num)
  · show min 100 (jsRound (calculateGuardScore [] ctx.calibration +
      calculateStabilityScore [] + calculateExecutionScore [] ctx.comboMoveTypes +
      calculateTimingScore [] [])) = 38
    rw [hg, hs, he, ht]
    rw [show (0 : ℝ) + 10 + 20 + 8 = 38 by norm_num]
    rw [jsRound_eq 38 38 (by norm_num) (by norm_num)]
    decide

/-- At zero torso length and coplanar shoulders the estimator
classifies `front`. -/
lemma estimateViewAngle_zeroTorsoLm :
    estimateViewAngle zeroTorsoLm = ViewAngle.front := by
  have hz1 : (zeroTorsoLm LANDMARK_INDICES.LEFT_SHOULDER).z = 0 := rfl
  have hz2 : (zeroTorsoLm LANDMARK_INDICES.RIGHT_SHOULDER).z = 0 := rfl
  simp only [estimateViewAngle, zeroTorso_torsoLength, zeroTorso_shoulderWidth,
    hz1, hz2]
  norm_num

/-- At zero torso length and a large shoulder depth difference the
estimator classifies `side`. -/
lemma estimateViewAngle_zeroTorsoSideLm :
    estimateViewAngle zeroTorsoSideLm = ViewAngle.side := by
  have hz1 : (zeroTorsoSideLm LANDMARK_INDICES.LEFT_SHOULDER).z = 0 := rfl
  have hz2 : (zeroTorsoSideLm LANDMARK_INDICES.RIGHT_SHOULDER).z = 0.3 := rfl
  simp only [estimateViewAngle, zeroTorsoSide_torsoLength,
    zeroTorsoSide_shoulderWidth, hz1, hz2]
  norm_num
  rw [show |(3 / 10 : ℝ)| = 3 / 10 from abs_of_nonneg (by norm_num)]
  norm_num

/-- Pushing a sample keeps the buffer length at `len + 1`, except that
a full buffer (31 after the push) is shifted back to 30. -/
lemma calibPush_length (buffer : List ℝ) (x : ℝ) :
    (CalibrationPhase.calibPush buffer x).length =
      if buffer.length + 1 > 30 then buffer.length else buffer.length + 1 := by
  simp only [CalibrationPhase.calibPush, List.length_append,
    List.length_singleton]
  split_ifs with h1
  · simp only [List.length_tail, List.length_append, List.length_singleton]
    omega
  · simp only [List.length_append, List.length_singleton]

/-- A buffer that already holds ten samples still does after a push. -/
lemma calibPush_ten (buffer : List ℝ) (x : ℝ) (h : 10 ≤ buffer.length) :
    10 ≤ (CalibrationPhase.calibPush buffer x).length := by
  rw [calibPush_length]
  split_ifs <;> omega

/-- The base pose has shoulder width 0.2. -/
lemma baseLm_shoulderWidth : getShoulderWidth baseLm = 0.2 := by
  have h1 : baseLm LANDMARK_INDICES.LEFT_SHOULDER =
      { x := 0.6, y := 0.5, z := 0, visibility := none } := rfl
  have h2 : baseLm LANDMARK_INDICES.RIGHT_SHOULDER =
      { x := 0.4, y := 0.5, z := 0, visibility := none } := rfl
  simp only [getShoulderWidth, calculateDistance, h1, h2]
  exact sqrt_eval (by norm_num) (by norm_num)

/-- Pushing the constant onto a short constant buffer extends it. -/
lemma calibPush_replicate (c : ℝ) (n : ℕ) (h : n + 1 ≤ 30) :
    CalibrationPhase.calibPush (List.replicate n c) c = List.replicate (n + 1) c := by
  unfold CalibrationPhase.calibPush
  rw [← List.replicate_succ']
  rw [if_neg (by simp; omega)]

/-- The rolling mean of a constant buffer is the constant. -/
lemma calibMean_replicate (c : ℝ) (n : ℕ) (hn : 0 < n) :
    CalibrationPhase.calibMean (List.replicate n c) = c := by
  unfold CalibrationPhase.calibMean
  rw [List.sum_replicate, List.length_replicate, nsmul_eq_mul]
  exact mul_div_cancel_left₀ c (Nat.cast_ne_zero.mpr hn.ne')

/-- The rolling variance of a constant buffer vanishes. -/
lemma calibVariance_replicate (c : ℝ) (n : ℕ) (hn : 0 < n) :
    CalibrationPhase.calibVariance (List.replicate n c) = 0 := by
  unfold CalibrationPhase.calibVariance
  rw [calibMean_replicate c n hn, List.map_replicate, List.length_replicate]
  simp

/-- Pushing the base pose's shoulder width onto the nine-sample buffer
yields ten constant samples. -/
lemma calibPush_calibBuf9 :
    CalibrationPhase.calibPush calibBuf9 (getShoulderWidth baseLm) =
      List.replicate 10 (0.2 : ℝ) := by
  show CalibrationPhase.calibPush (List.replicate 9 0.2)
    (getShoulderWidth baseLm) = _
  rw [baseLm_shoulderWidth]
  exact calibPush_replicate 0.2 9 (by norm_num)

/-- Pushing the base pose's shoulder width onto the ten-sample buffer
yields eleven constant samples. -/
lemma calibPush_calibBuf10 :
    CalibrationPhase.calibPush calibBuf10 (getShoulderWidth baseLm) =
      List.replicate 11 (0.2 : ℝ) := by
  show CalibrationPhase.calibPush (List.replicate 10 0.2)
    (getShoulderWidth baseLm) = _
  rw [baseLm_shoulderWidth]
  exact calibPush_replicate 0.2 10 (by norm_num)

/-- A stable tick at `now = 3000` confirms from `sHolding`. -/
lemma processFrame_sHolding_confirm :
    (CalibrationPhase.processFrame sHolding baseLm 3000).step =
      CalibrationPhase.CalibrationStep.confirm := by
  have h15 : (0.2 : ℝ) = 1 / 5 := by norm_num
  have hvar : CalibrationPhase.calibVariance (List.replicate 11 ((1 : ℝ) / 5)) = 0 := by
    rw [← h15]
    exact calibVariance_replicate 0.2 11 (by norm_num)
  norm_num [CalibrationPhase.processFrame, calibPush_calibBuf10, hvar,
    CalibrationPhase.STABILITY_THRESHOLD, CalibrationPhase.HOLD_DURATION,
    sHolding]
  rw [if_neg (by simp)]

/-- The stability subscore is non-negative. -/
lemma calculateStabilityScore_nonneg (arr : List Landmarks) :
    0 ≤ calculateStabilityScore arr := by
  unfold calculateStabilityScore
  split
  · norm_num
  · have h := calculateStability_nonneg arr
    linarith

/-- The execution subscore is non-negative. -/
lemma calculateExecutionScore_nonneg (arr : List Landmarks)
    (mt : List String) : 0 ≤ calculateExecutionScore arr mt := by
  unfold calculateExecutionScore
  split
  · norm_num
  · dsimp only
    split_ifs <;> positivity

/-- The timing subscore is non-negative. -/
lemma calculateTimingScore_nonneg (arr : List Landmarks)
    (frames : List PoseFrame) : 0 ≤ calculateTimingScore arr frames := by
  unfold calculateTimingScore
  split
  · norm_num
  · dsimp only
    split_ifs <;> norm_num

/-- The base pose scores 0 on the guard detector (wrists down). -/
lemma isGuardUp_baseLm : (isGuardUp baseLm none).score = 0 := by
  have hn : baseLm LANDMARK_INDICES.NOSE =
      { x := 0.5, y := 0.3, z := 0, visibility := none } := rfl
  have hlw : baseLm LANDMARK_INDICES.LEFT_WRIST =
      { x := 0.5, y := 0.9, z := 0, visibility := none } := rfl
  have hrw : baseLm LANDMARK_INDICES.RIGHT_WRIST =
      { x := 0.5, y := 0.9, z := 0, visibility := none } := rfl
  have hls : baseLm LANDMARK_INDICES.LEFT_SHOULDER =
      { x := 0.6, y := 0.5, z := 0, visibility := none } := rfl
  have hrs : baseLm LANDMARK_INDICES.RIGHT_SHOULDER =
      { x := 0.4, y := 0.5, z := 0, visibility := none } := rfl
  simp only [isGuardUp, hn, hlw, hrw, hls, hrs]
  norm_num [min_def, abs_sub_lt_iff]

/-- The hip-shifted pose also scores 0 (same wrists). -/
lemma isGuardUp_hipLm : (isGuardUp hipLm none).score = 0 := by
  have hn : hipLm LANDMARK_INDICES.NOSE =
      { x := 0.5, y := 0.3, z := 0, visibility := none } := rfl
  have hlw : hipLm LANDMARK_INDICES.LEFT_WRIST =
      { x := 0.5, y := 0.9, z := 0, visibility := none } := rfl
  have hrw : hipLm LANDMARK_INDICES.RIGHT_WRIST =
      { x := 0.5, y := 0.9, z := 0, visibility := none } := rfl
  have hls : hipLm LANDMARK_INDICES.LEFT_SHOULDER =
      { x := 0.6, y := 0.5, z := 0, visibility := none } := rfl
  have hrs : hipLm LANDMARK_INDICES.RIGHT_SHOULDER =
      { x := 0.4, y := 0.5, z := 0, visibility := none } := rfl
  simp only [isGuardUp, hn, hlw, hrw, hls, hrs]
  norm_num [min_def, abs_sub_lt_iff]

/-- The raised-left-wrist pose scores exactly 50: left wrist up without
the optimal-height bonus, right wrist down. -/
lemma isGuardUp_guardLm : (isGuardUp guardLm none).score = 50 := by
  have hn : guardLm LANDMARK_INDICES.NOSE =
      { x := 0.5, y := 0.3, z := 0, visibility := none } := rfl
  have hlw : guardLm LANDMARK_INDICES.LEFT_WRIST =
      { x := 0.5, y := 0.1, z := 0, visibility := none } := rfl
  have hrw : guardLm LANDMARK_INDICES.RIGHT_WRIST =
      { x := 0.5, y := 0.9, z := 0, visibility := none } := rfl
  have hls : guardLm LANDMARK_INDICES.LEFT_SHOULDER =
      { x := 0.6, y := 0.5, z := 0, visibility := none } := rfl
  have hrs : guardLm LANDMARK_INDICES.RIGHT_SHOULDER =
      { x := 0.4, y := 0.5, z := 0, visibility := none } := rfl
  simp only [isGuardUp, hn, hlw, hrw, hls, hrs]
  norm_num [min_def, abs_sub_lt_iff]
  rw [show |(3 / 20 : ℝ)| = 3 / 20 from abs_of_nonneg (by norm_num)]
  norm_num

/-- Guard subscore of the five-frame attempt: one sampled frame at 50
out of five samples, scaled — 2.5 points. -/
lemma c10_guardScore :
    calculateGuardScore [baseLm, baseLm, guardLm, baseLm, hipLm] none =
      5 / 2 := by
  have hidx : guardSampleIndices
      ([baseLm, baseLm, guardLm, baseLm, hipLm] : List Landmarks).length
      (guardStep ([baseLm, baseLm, guardLm, baseLm, hipLm] :
        List Landmarks).length) = [0, 1, 2, 3, 4] := rfl
  have e0 : ([baseLm, baseLm, guardLm, baseLm, hipLm] :
      List Landmarks).getD 0 defaultLandmarks = baseLm := rfl
  have e1 : ([baseLm, baseLm, guardLm, baseLm, hipLm] :
      List Landmarks).getD 1 defaultLandmarks = baseLm := rfl
  have e2 : ([baseLm, baseLm, guardLm, baseLm, hipLm] :
      List Landmarks).getD 2 defaultLandmarks = guardLm := rfl
  have e3 : ([baseLm, baseLm, guardLm, baseLm, hipLm] :
      List Landmarks).getD 3 defaultLandmarks = baseLm := rfl
  have e4 : ([baseLm, baseLm, guardLm, baseLm, hipLm] :
      List Landmarks).getD 4 defaultLandmarks = hipLm := rfl
  unfold calculateGuardScore
  rw [if_neg (by simp)]
  dsimp only
  rw [hidx]
  simp only [List.map_cons, List.map_nil, List.sum_cons, List.sum_nil,
    List.length_cons, List.length_nil, e0, e1, e2, e3, e4,
    isGuardUp_baseLm, isGuardUp_guardLm, isGuardUp_hipLm]
  norm_num

/-- Hip center of the base pose. -/
lemma hipCenter_baseLm : hipCenter baseLm = ((1 : ℝ) / 2, (4 : ℝ) / 5) := by
  have h3 : baseLm LANDMARK_INDICES.LEFT_HIP =
      { x := 0.55, y := 0.8, z := 0, visibility := none } := rfl
  have h4 : baseLm LANDMARK_INDICES.RIGHT_HIP =
      { x := 0.45, y := 0.8, z := 0, visibility := none } := rfl
  simp only [hipCenter, h3, h4]
  norm_num

/-- Hip center of the guard pose (hips unchanged). -/
lemma hipCenter_guardLm : hipCenter guardLm = ((1 : ℝ) / 2, (4 : ℝ) / 5) := by
  have h3 : guardLm LANDMARK_INDICES.LEFT_HIP =
      { x := 0.55, y := 0.8, z := 0, visibility := none } := rfl
  have h4 : guardLm LANDMARK_INDICES.RIGHT_HIP =
      { x := 0.45, y := 0.8, z := 0, visibility := none } := rfl
  simp only [hipCenter, h3, h4]
  norm_num

/-- Hip center of the hip-shifted pose. -/
lemma hipCenter_hipLm : hipCenter hipLm = ((1 : ℝ) / 2, (81 : ℝ) / 100) := by
  have h3 : hipLm LANDMARK_INDICES.LEFT_HIP =
      { x := 0.55, y := 0.82, z := 0, visibility := none } := rfl
  have h4 : hipLm LANDMARK_INDICES.RIGHT_HIP =
      { x := 0.45, y := 0.8, z := 0, visibility := none } := rfl
  simp only [hipCenter, h3, h4]
  norm_num

/-- Hip variance of the five-frame attempt: four centers at 0.8 and one
at 0.81 give variance 0.000016. -/
lemma c10_hipVariance :
    hipVariance [baseLm, baseLm, guardLm, baseLm, hipLm] = 1 / 62500 := by
  unfold hipVariance
  dsimp only
  simp only [List.map_cons, List.map_nil, hipCenter_baseLm, hipCenter_guardLm,
    hipCenter_hipLm, List.sum_cons, List.sum_nil, List.length_cons,
    List.length_nil]
  norm_num

/-- Stability subscore of the five-frame attempt:
`(100 − 0.000016·5000)/100·20 = 19.984`. -/
lemma c10_stabilityScore :
    calculateStabilityScore [baseLm, baseLm, guardLm, baseLm, hipLm] =
      2498 / 125 := by
  unfold calculateStabilityScore
  rw [if_neg (by simp)]
  unfold calculateStability
  rw [if_neg (by simp)]
  rw [c10_hipVariance]
  rw [show (100 : ℝ) - 1 / 62500 * 5000 = 2498 / 25 by norm_num]
  rw [max_eq_right (by norm_num), min_eq_right (by norm_num)]
  norm_num

/-- Execution subscore with no move types: the default 25. -/
lemma c10_executionScore :
    calculateExecutionScore [baseLm, baseLm, guardLm, baseLm, hipLm] [] =
      25 := by
  unfold calculateExecutionScore
  rw [if_neg (by simp)]
  simp

/-- The movement between identical frames is zero. -/
lemma frameMovement_self (lm : Landmarks) : frameMovement lm lm = 0 := by
  unfold frameMovement
  simp

/-- The movement between frames differing at a single landmark is that
landmark's displacement. -/
lemma frameMovement_single (prev curr : Landmarks) (p : Fin 33)
    (h : ∀ j, j ≠ p → curr j = prev j) :
    frameMovement prev curr =
      Real.sqrt (((curr p).x - (prev p).x) * ((curr p).x - (prev p).x) +
        ((curr p).y - (prev p).y) * ((curr p).y - (prev p).y)) := by
  unfold frameMovement
  apply Finset.sum_eq_single p
  · intro b _ hb
    rw [h b hb]
    simp
  · intro hp
    exact absurd (Finset.mem_univ p) hp

/-- Movement from the base pose to the guard pose: the left wrist rises
by 0.8. -/
lemma fm_base_guard : frameMovement baseLm guardLm = 4 / 5 := by
  rw [frameMovement_single baseLm guardLm LANDMARK_INDICES.LEFT_WRIST
    (fun j hj => if_neg hj)]
  rw [show guardLm LANDMARK_INDICES.LEFT_WRIST =
    { x := 0.5, y := 0.1, z := 0, visibility := none } from rfl]
  rw [show baseLm LANDMARK_INDICES.LEFT_WRIST =
    { x := 0.5, y := 0.9, z := 0, visibility := none } from rfl]
  exact sqrt_eval (by norm_num) (by norm_num)

/-- Movement back from the guard pose to the base pose. -/
lemma fm_guard_base : frameMovement guardLm baseLm = 4 / 5 := by
  rw [frameMovement_single guardLm baseLm LANDMARK_INDICES.LEFT_WRIST
    (fun j hj => (if_neg hj).symm)]
  rw [show guardLm LANDMARK_INDICES.LEFT_WRIST =
    { x := 0.5, y := 0.1, z := 0, visibility := none } from rfl]
  rw [show baseLm LANDMARK_INDICES.LEFT_WRIST =
    { x := 0.5, y := 0.9, z := 0, visibility := none } from rfl]
  exact sqrt_eval (by norm_num) (by norm_num)

/-- Movement from the base pose to the hip-shifted pose: the left hip
moves by 0.02. -/
lemma fm_base_hip : frameMovement baseLm hipLm = 1 / 50 := by
  rw [frameMovement_single baseLm hipLm LANDMARK_INDICES.LEFT_HIP
    (fun j hj => if_neg hj)]
  rw [show hipLm LANDMARK_INDICES.LEFT_HIP =
    { x := 0.55, y := 0.82, z := 0, visibility := none } from rfl]
  rw [show baseLm LANDMARK_INDICES.LEFT_HIP =
    { x := 0.55, y := 0.8, z := 0, visibility := none } from rfl]
  exact sqrt_eval (by norm_num) (by norm_num)

/-- The movement series of the five-frame attempt. -/
lemma c10_movements :
    movementSeries [baseLm, baseLm, guardLm, baseLm, hipLm] =
      [0, 4 / 5, 4 / 5, 1 / 50] := by
  unfold movementSeries
  simp only [List.tail_cons, List.zipWith_cons_cons, List.zipWith_nil_right,
    frameMovement_self, fm_base_guard, fm_guard_base, fm_base_hip]

/-- Timing subscore of the five-frame attempt: mean movement 0.405
misses the first band and variance ≈0.156 misses the second, so 5. -/
lemma c10_timingScore :
    calculateTimingScore [baseLm, baseLm, guardLm, baseLm, hipLm]
      c10Frames = 5 := by
  unfold calculateTimingScore
  rw [if_neg (by simp [c10Frames])]
  dsimp only
  rw [c10_movements]
  simp only [List.map_cons, List.map_nil, List.sum_cons, List.sum_nil,
    List.length_cons, List.length_nil]
  norm_num

end MuayThai

namespace MuayThai

/-! ### Claim theorems -/

/-- C7: for all landmark points `a`, `b`, `c`, `calculateAngle a b c`
lies in `[0, 180]` and is symmetric under swapping `a` and `c`. -/
theorem calculateAngle_bounds_and_symm (a b c : Landmark) :
    (0 ≤ calculateAngle a b c ∧ calculateAngle a b c ≤ 180) ∧
      calculateAngle a b c = calculateAngle c b a := by
  have hpi := Real.pi_pos
  set r := atan2 (c.y - b.y) (c.x - b.x) - atan2 (a.y - b.y) (a.x - b.x) with hrdef
  have hswap : atan2 (a.y - b.y) (a.x - b.x) - atan2 (c.y - b.y) (c.x - b.x) = -r := by
    rw [hrdef]; ring
  have hube : |(-r) * 180 / Real.pi| = |r * 180 / Real.pi| := by
    rw [abs_div, abs_div, abs_mul, abs_mul, abs_neg]
  have habs : |r| < 2 * Real.pi := abs_atan2_sub_lt _ _ _ _
  have hlt : |r * 180 / Real.pi| < 360 := by
    rw [abs_div, abs_mul, abs_of_pos hpi]
    rw [div_lt_iff₀ hpi]
    have h180 : |(180 : ℝ)| = 180 := by norm_num
    rw [h180]
    nlinarith [abs_nonneg r]
  have hnonneg : 0 ≤ |r * 180 / Real.pi| := abs_nonneg _
  constructor
  · rw [calculateAngle_eq, ← hrdef]
    split <;> constructor <;> linarith
  · rw [calculateAngle_eq, calculateAngle_eq, ← hrdef, hswap, hube]

/-- C8: for every input, the feedback generator returns strengths,
improvements and warnings lists of at most 3 entries each, and the
strengths list is never empty. -/
theorem generateFeedback_caps (scores : Subscores) (frames : List PoseFrame)
    (context : ScoringContext) :
    (generateFeedback scores frames context).strengths.length ≤ 3 ∧
      (generateFeedback scores frames context).improvements.length ≤ 3 ∧
      (generateFeedback scores frames context).warnings.length ≤ 3 ∧
      (generateFeedback scores frames context).strengths ≠ [] := by
  unfold generateFeedback
  dsimp only
  exact ⟨length_take_le_three _, length_take_le_three _, length_take_le_three _,
    take_three_fallback_ne_nil _ _ (by simp)⟩

/-- C6: for frame lists of length at least two the stability primitive
returns exactly `min 100 (max 0 (100 − variance·5000))` over the
hip-center population variance; the returned score is a non-increasing
function of that variance; and for at least five frames the scoring
engine rescales it by `/100·20` into `[0, 20]`. -/
theorem calculateStability_clamp_and_monotone :
    (∀ frames : List Landmarks, 2 ≤ frames.length →
        calculateStability frames =
          min 100 (max 0 (100 - hipVariance frames * 5000))) ∧
      (∀ f1 f2 : List Landmarks, hipVariance f1 ≤ hipVariance f2 →
        calculateStability f2 ≤ calculateStability f1) ∧
      (∀ arr : List Landmarks, 5 ≤ arr.length →
        calculateStabilityScore arr = calculateStability arr / 100 * 20 ∧
          0 ≤ calculateStabilityScore arr ∧ calculateStabilityScore arr ≤ 20) := by
  refine ⟨?_, ?_, ?_⟩
  · intro frames h
    unfold calculateStability
    rw [if_neg (by omega)]
  · intro f1 f2 h
    unfold calculateStability
    by_cases h1 : f1.length < 2
    · rw [if_pos h1]
      by_cases h2 : f2.length < 2
      · rw [if_pos h2]
      · rw [if_neg h2]
        exact min_le_left _ _
    · rw [if_neg h1]
      by_cases h2 : f2.length < 2
      · rw [if_pos h2]
        have hz : hipVariance f1 = 0 :=
          le_antisymm (by rw [← hipVariance_short f2 h2]; exact h)
            (hipVariance_nonneg f1)
        rw [hz]
        norm_num
      · rw [if_neg h2]
        apply min_le_min le_rfl
        apply max_le_max le_rfl
        nlinarith
  · intro arr h
    unfold calculateStabilityScore
    rw [if_neg (by omega)]
    have h1 := calculateStability_nonneg arr
    have h2 := calculateStability_le_100 arr
    refine ⟨rfl, by linarith, by linarith⟩

/-- Witness for C6 at the constant five-frame list. -/
theorem calculateStability_clamp_and_monotone_witness :
    calculateStability (List.replicate 5 defaultLandmarks) =
      min 100 (max 0 (100 - hipVariance (List.replicate 5 defaultLandmarks) * 5000)) ∧
      calculateStability (List.replicate 5 defaultLandmarks) ≤
        calculateStability (List.replicate 5 defaultLandmarks) ∧
      (calculateStabilityScore (List.replicate 5 defaultLandmarks) =
          calculateStability (List.replicate 5 defaultLandmarks) / 100 * 20 ∧
        0 ≤ calculateStabilityScore (List.replicate 5 defaultLandmarks) ∧
          calculateStabilityScore (List.replicate 5 defaultLandmarks) ≤ 20) :=
  ⟨calculateStability_clamp_and_monotone.1 _ (by simp),
    calculateStability_clamp_and_monotone.2.1 _ _ le_rfl,
    calculateStability_clamp_and_monotone.2.2 _ (by simp)⟩

/-- C3 counterexample: for a 21-frame attempt the sampling step is
`21 / min 20 21 = 1`, so the loop visits all 21 frames — the sample
count exceeds the claimed 20-frame cap. -/
theorem guardSampleCount_exceeds_twenty :
    (guardSampleIndices 21 (guardStep 21)).length = 21 ∧
      ¬(guardSampleIndices 21 (guardStep 21)).length ≤ 20 := by decide

/-- C3, amended: for a non-empty frame list of length `n` the guard
subscore averages the per-frame scores at indices `0, step, 2·step, …`
below `n` with `step = ⌊n / min 20 n⌋` (not `⌊n/20⌋`); the number of
sampled frames is `⌈n/step⌉`, which can exceed 20; the result always
lies in `[0, 25]`. -/
theorem calculateGuardScore_sampling (arr : List Landmarks)
    (cal : Option CalibrationData) (_h : arr ≠ []) :
    guardStep arr.length = arr.length / min 20 arr.length ∧
      (guardSampleIndices arr.length (guardStep arr.length)).length =
        (arr.length + guardStep arr.length - 1) / guardStep arr.length ∧
      0 ≤ calculateGuardScore arr cal ∧ calculateGuardScore arr cal ≤ 25 :=
  ⟨rfl, by simp [guardSampleIndices], (calculateGuardScore_bounds arr cal).1,
    (calculateGuardScore_bounds arr cal).2⟩

open CalibrationPhase in
/-- C2: one calibration tick moves `detecting → holding` exactly when
the pushed rolling buffer holds at least 10 samples with population
variance below the 0.02 threshold (staying in `detecting` otherwise);
from `holding` (whose buffer already holds ≥10 samples) it moves to
`confirm` exactly when the tick is stable and at least 3000 ms have
passed since the instant holding began; and an unstable tick in
`holding` returns to `detecting`, clearing the hold start and resetting
the hold progress to zero. -/
theorem calibration_step_transitions (s : CalibState) (lm : Landmarks)
    (now : ℝ) :
    (s.step = .detecting →
      (((processFrame s lm now).step = .holding ↔
          10 ≤ (calibPush s.stabilityBuffer (getShoulderWidth lm)).length ∧
            calibVariance (calibPush s.stabilityBuffer (getShoulderWidth lm)) <
              STABILITY_THRESHOLD) ∧
        (¬(10 ≤ (calibPush s.stabilityBuffer (getShoulderWidth lm)).length ∧
            calibVariance (calibPush s.stabilityBuffer (getShoulderWidth lm)) <
              STABILITY_THRESHOLD) →
          (processFrame s lm now).step = .detecting))) ∧
      (s.step = .holding → 10 ≤ s.stabilityBuffer.length →
        (((processFrame s lm now).step = .confirm ↔
            calibVariance (calibPush s.stabilityBuffer (getShoulderWidth lm)) <
              STABILITY_THRESHOLD ∧
              HOLD_DURATION ≤ now - s.holdStartTime.getD 0) ∧
          (¬calibVariance (calibPush s.stabilityBuffer (getShoulderWidth lm)) <
              STABILITY_THRESHOLD →
            (processFrame s lm now).step = .detecting ∧
              (processFrame s lm now).holdStartTime = none ∧
              (processFrame s lm now).holdProgress = 0))) := by
  constructor
  · intro hdet
    by_cases h10 : 10 ≤ (calibPush s.stabilityBuffer (getShoulderWidth lm)).length
    · by_cases hvar : calibVariance (calibPush s.stabilityBuffer
        (getShoulderWidth lm)) < STABILITY_THRESHOLD
      · simp [processFrame, hdet, h10, hvar]
      · simp [processFrame, hdet, h10, hvar]
    · simp [processFrame, hdet, h10]
  · intro hhold h10b
    have h10 : 10 ≤ (calibPush s.stabilityBuffer (getShoulderWidth lm)).length :=
      calibPush_ten _ _ h10b
    by_cases hvar : calibVariance (calibPush s.stabilityBuffer
      (getShoulderWidth lm)) < STABILITY_THRESHOLD
    · by_cases helapsed : HOLD_DURATION ≤ now - s.holdStartTime.getD 0
      · simp [processFrame, hhold, h10, hvar, helapsed]
      · simp [processFrame, hhold, h10, hvar, helapsed]
    · simp [processFrame, hhold, h10, hvar]

/-- C10: the overall score is `min(100, round(guard + stability +
execution + timing))` computed from the unrounded subscores while the
four reported subscores are rounded individually; on a concrete
five-frame attempt (guard 2.5, stability 19.984, execution 25,
timing 5) the reported overall is 52 but the reported subscores sum to
53; and the overall always lies in `[0, 100]`. -/
theorem generateScore_overall_rounding :
    (∀ (frames : List PoseFrame) (ctx : ScoringContext),
      (generateScore frames ctx).score.overall =
          min 100 (jsRound
            (calculateGuardScore (frames.map (·.landmarks)) ctx.calibration +
              calculateStabilityScore (frames.map (·.landmarks)) +
              calculateExecutionScore (frames.map (·.landmarks))
                ctx.comboMoveTypes +
              calculateTimingScore (frames.map (·.landmarks)) frames)) ∧
        (generateScore frames ctx).score.guard =
          jsRound (calculateGuardScore (frames.map (·.landmarks))
            ctx.calibration) ∧
        (generateScore frames ctx).score.stability =
          jsRound (calculateStabilityScore (frames.map (·.landmarks))) ∧
        (generateScore frames ctx).score.execution =
          jsRound (calculateExecutionScore (frames.map (·.landmarks))
            ctx.comboMoveTypes) ∧
        (generateScore frames ctx).score.timing =
          jsRound (calculateTimingScore (frames.map (·.landmarks)) frames)) ∧
      ((generateScore c10Frames ctx0).score.overall = 52 ∧
        (generateScore c10Frames ctx0).score.guard +
            (generateScore c10Frames ctx0).score.stability +
            (generateScore c10Frames ctx0).score.execution +
            (generateScore c10Frames ctx0).score.timing = 53 ∧
        (generateScore c10Frames ctx0).score.overall ≠
          (generateScore c10Frames ctx0).score.guard +
            (generateScore c10Frames ctx0).score.stability +
            (generateScore c10Frames ctx0).score.execution +
            (generateScore c10Frames ctx0).score.timing) ∧
      (∀ (frames : List PoseFrame) (ctx : ScoringContext),
        0 ≤ (generateScore frames ctx).score.overall ∧
          (generateScore frames ctx).score.overall ≤ 100) := by
  have hovr : (generateScore c10Frames ctx0).score.overall = 52 := by
    show min 100 (jsRound
      (calculateGuardScore [baseLm, baseLm, guardLm, baseLm, hipLm] none +
        calculateStabilityScore [baseLm, baseLm, guardLm, baseLm, hipLm] +
        calculateExecutionScore [baseLm, baseLm, guardLm, baseLm, hipLm] [] +
        calculateTimingScore [baseLm, baseLm, guardLm, baseLm, hipLm]
          c10Frames)) = 52
    rw [c10_guardScore, c10_stabilityScore, c10_executionScore,
      c10_timingScore]
    rw [jsRound_eq _ 52 (by norm_num) (by norm_num)]
    exact min_eq_right (by norm_num)
  have hsum : (generateScore c10Frames ctx0).score.guard +
      (generateScore c10Frames ctx0).score.stability +
      (generateScore c10Frames ctx0).score.execution +
      (generateScore c10Frames ctx0).score.timing = 53 := by
    show jsRound (calculateGuardScore [baseLm, baseLm, guardLm, baseLm, hipLm]
        none) +
      jsRound (calculateStabilityScore [baseLm, baseLm, guardLm, baseLm, hipLm]) +
      jsRound (calculateExecutionScore [baseLm, baseLm, guardLm, baseLm, hipLm]
        []) +
      jsRound (calculateTimingScore [baseLm, baseLm, guardLm, baseLm, hipLm]
        c10Frames) = 53
    rw [c10_guardScore, c10_stabilityScore, c10_executionScore,
      c10_timingScore]
    rw [jsRound_eq ((5 : ℝ) / 2) 3 (by norm_num) (by norm_num),
      jsRound_eq ((2498 : ℝ) / 125) 20 (by norm_num) (by norm_num),
      jsRound_eq (25 : ℝ) 25 (by norm_num) (by norm_num),
      jsRound_eq (5 : ℝ) 5 (by norm_num) (by norm_num)]
    decide
  refine ⟨fun frames ctx => ⟨rfl, rfl, rfl, rfl, rfl⟩,
    ⟨hovr, hsum, by rw [hovr, hsum]; decide⟩,
    fun frames ctx => ⟨?_, ?_⟩⟩
  · have hb := calculateGuardScore_bounds (frames.map (·.landmarks))
      ctx.calibration
    have hs := calculateStabilityScore_nonneg (frames.map (·.landmarks))
    have he := calculateExecutionScore_nonneg (frames.map (·.landmarks))
      ctx.comboMoveTypes
    have ht := calculateTimingScore_nonneg (frames.map (·.landmarks)) frames
    show 0 ≤ min 100 (jsRound
      (calculateGuardScore (frames.map (·.landmarks)) ctx.calibration +
        calculateStabilityScore (frames.map (·.landmarks)) +
        calculateExecutionScore (frames.map (·.landmarks)) ctx.comboMoveTypes +
        calculateTimingScore (frames.map (·.landmarks)) frames))
    refine le_min (by norm_num) (jsRound_nonneg _ ?_)
    linarith [hb.1]
  · show min 100 (jsRound
      (calculateGuardScore (frames.map (·.landmarks)) ctx.calibration +
        calculateStabilityScore (frames.map (·.landmarks)) +
        calculateExecutionScore (frames.map (·.landmarks)) ctx.comboMoveTypes +
        calculateTimingScore (frames.map (·.landmarks)) frames)) ≤ 100
    exact min_le_left _ _

/-- Witness for C2: the detecting state with nine buffered samples
moves to `holding` on a stable tenth sample, and the holding state
confirms on a stable tick 3000 ms after holding began. -/
theorem calibration_step_transitions_witness :
    (CalibrationPhase.processFrame sDetecting baseLm 0).step =
        CalibrationPhase.CalibrationStep.holding ∧
      (CalibrationPhase.processFrame sHolding baseLm 3000).step =
        CalibrationPhase.CalibrationStep.confirm := by
  constructor
  · refine ((calibration_step_transitions sDetecting baseLm 0).1 rfl).1.mpr
      ⟨?_, ?_⟩
    · show 10 ≤ (CalibrationPhase.calibPush calibBuf9 (getShoulderWidth baseLm)).length
      rw [calibPush_calibBuf9]
      simp
    · show CalibrationPhase.calibVariance
        (CalibrationPhase.calibPush calibBuf9 (getShoulderWidth baseLm)) <
          CalibrationPhase.STABILITY_THRESHOLD
      rw [calibPush_calibBuf9, calibVariance_replicate 0.2 10 (by norm_num)]
      norm_num [CalibrationPhase.STABILITY_THRESHOLD]
  · refine ((calibration_step_transitions sHolding baseLm 3000).2 rfl
      (by simp [sHolding, calibBuf10])).1.mpr ⟨?_, ?_⟩
    · show CalibrationPhase.calibVariance
        (CalibrationPhase.calibPush calibBuf10 (getShoulderWidth baseLm)) <
          CalibrationPhase.STABILITY_THRESHOLD
      rw [calibPush_calibBuf10, calibVariance_replicate 0.2 11 (by norm_num)]
      norm_num [CalibrationPhase.STABILITY_THRESHOLD]
    · show CalibrationPhase.HOLD_DURATION ≤
        3000 - (sHolding.holdStartTime).getD 0
      norm_num [CalibrationPhase.HOLD_DURATION, sHolding]

open CalibrationPhase in
/-- C5: whenever a tick from `holding` reaches `confirm`, the captured
`baselineScale` is exactly the rolling mean of the (just pushed)
shoulder-width buffer at that instant, and the captured
`baselineGuardHeight` is `noseY − (leftWristY + rightWristY)/2` of the
tick's frame; on a constant (zero-variance) buffer that rolling mean is
the constant sequence value. -/
theorem calibration_confirm_capture (s : CalibState) (lm : Landmarks)
    (now : ℝ) (hhold : s.step = .holding)
    (hconf : (processFrame s lm now).step = .confirm) :
    (processFrame s lm now).baselineScale =
        calibMean (calibPush s.stabilityBuffer (getShoulderWidth lm)) ∧
      (processFrame s lm now).baselineGuardHeight =
        (lm LANDMARK_INDICES.NOSE).y -
          ((lm LANDMARK_INDICES.LEFT_WRIST).y +
            (lm LANDMARK_INDICES.RIGHT_WRIST).y) / 2 ∧
      (∀ (c : ℝ) (n : ℕ), 0 < n → calibMean (List.replicate n c) = c) := by
  simp only [processFrame] at hconf ⊢
  split_ifs at hconf ⊢ <;>
    first
    | exact ⟨rfl, rfl, fun c n hn => calibMean_replicate c n hn⟩
    | simp_all

/-- Witness for C5 at the holding state and a stable confirming tick. -/
theorem calibration_confirm_capture_witness :
    (CalibrationPhase.processFrame sHolding baseLm 3000).baselineScale =
        CalibrationPhase.calibMean (CalibrationPhase.calibPush
          sHolding.stabilityBuffer (getShoulderWidth baseLm)) ∧
      (CalibrationPhase.processFrame sHolding baseLm 3000).baselineGuardHeight =
        (baseLm LANDMARK_INDICES.NOSE).y -
          ((baseLm LANDMARK_INDICES.LEFT_WRIST).y +
            (baseLm LANDMARK_INDICES.RIGHT_WRIST).y) / 2 ∧
      (∀ (c : ℝ) (n : ℕ), 0 < n →
        CalibrationPhase.calibMean (List.replicate n c) = c) :=
  calibration_confirm_capture sHolding baseLm 3000 rfl
    processFrame_sHolding_confirm

/-- C1 counterexample: on the empty frame list the overall score is 38,
nowhere near the claimed ≈65 (not even within ±20 of it). -/
theorem generateScore_nil_overall_counterexample :
    (generateScore [] ctx0).score.overall = 38 ∧
      ¬(45 ≤ (generateScore [] ctx0).score.overall ∧
        (generateScore [] ctx0).score.overall ≤ 85) := by
  have h := (generateScore_nil ctx0).2.2.2.2.2.2
  refine ⟨h, ?_⟩
  rw [h]
  decide

/-- C1, amended: for the empty frame list `generateScore` returns
without error `frameCount = 0`, `duration = 0`, the fixed defaults
stability 10, execution 20, timing 8, guard 0 (the empty-list guard
value), and overall `round(0+10+20+8) = 38` — not ≈65. -/
theorem generateScore_nil_defaults (ctx : ScoringContext) :
    (generateScore [] ctx).frameCount = 0 ∧
      (generateScore [] ctx).duration = 0 ∧
      (generateScore [] ctx).score.guard = 0 ∧
      (generateScore [] ctx).score.stability = 10 ∧
      (generateScore [] ctx).score.execution = 20 ∧
      (generateScore [] ctx).score.timing = 8 ∧
      (generateScore [] ctx).score.overall = 38 :=
  generateScore_nil ctx

/-- C9: for a non-empty frame list the `duration` field is the
timestamp of the last frame (not the elapsed time since the first);
for the empty list it is 0. -/
theorem generateScore_duration (frames : List PoseFrame)
    (ctx : ScoringContext) (h : frames ≠ []) :
    (generateScore frames ctx).duration = (frames.getLast h).timestamp ∧
      (generateScore [] ctx).duration = 0 := by
  constructor
  · show (match frames.getLast? with
      | some f => f.timestamp
      | none => 0) = (frames.getLast h).timestamp
    rw [List.getLast?_eq_getLast_of_ne_nil h]
  · rfl

/-- Witness for C9 at a one-frame list with timestamp 123. -/
theorem generateScore_duration_witness :
    (generateScore [{ timestamp := 123, landmarks := defaultLandmarks }] ctx0).duration = 123 := by
  have h := (generateScore_duration
    [{ timestamp := 123, landmarks := defaultLandmarks }] ctx0 (by simp)).1
  rw [h]
  rfl

/-- C4 counterexample: `estimateViewAngle` performs the division even
at zero torso length — it does not short-circuit to any fixed
default/neutral classification: two zero-torso frames classify as
`front` and as `side` respectively. -/
theorem estimateViewAngle_zero_torso_counterexample :
    getTorsoLength zeroTorsoLm = 0 ∧ getTorsoLength zeroTorsoSideLm = 0 ∧
      estimateViewAngle zeroTorsoLm = ViewAngle.front ∧
      estimateViewAngle zeroTorsoSideLm = ViewAngle.side :=
  ⟨zeroTorso_torsoLength, zeroTorsoSide_torsoLength,
    estimateViewAngle_zeroTorsoLm, estimateViewAngle_zeroTorsoSideLm⟩

/-- C4, amended: `estimateViewAngle` has no zero-divisor guard; for a
frame with zero torso length and non-zero shoulder width the IEEE ratio
is `Infinity`, so the classification is decided by the shoulder
depth difference alone (`front` when `zDiff < 0.1`, `side` when
`zDiff > 0.2`, otherwise `three-quarter`). -/
theorem estimateViewAngle_zero_torso (lm : Landmarks)
    (h0 : getTorsoLength lm = 0) (hsw : getShoulderWidth lm ≠ 0) :
    estimateViewAngle lm =
      (if |(lm LANDMARK_INDICES.LEFT_SHOULDER).z -
          (lm LANDMARK_INDICES.RIGHT_SHOULDER).z| < 0.1 then ViewAngle.front
        else if |(lm LANDMARK_INDICES.LEFT_SHOULDER).z -
          (lm LANDMARK_INDICES.RIGHT_SHOULDER).z| > 0.2 then ViewAngle.side
        else ViewAngle.threeQuarter) := by
  unfold estimateViewAngle
  dsimp only
  rw [if_pos h0, if_neg hsw]

/-- Witness for C4 at the zero-torso frontal frame. -/
theorem estimateViewAngle_zero_torso_witness :
    estimateViewAngle zeroTorsoLm =
      (if |(zeroTorsoLm LANDMARK_INDICES.LEFT_SHOULDER).z -
          (zeroTorsoLm LANDMARK_INDICES.RIGHT_SHOULDER).z| < 0.1 then ViewAngle.front
        else if |(zeroTorsoLm LANDMARK_INDICES.LEFT_SHOULDER).z -
          (zeroTorsoLm LANDMARK_INDICES.RIGHT_SHOULDER).z| > 0.2 then ViewAngle.side
        else ViewAngle.threeQuarter) :=
  estimateViewAngle_zero_torso zeroTorsoLm zeroTorso_torsoLength
    (by rw [zeroTorso_shoulderWidth]; norm_num)

/-- Witness for C3 at a one-frame list. -/
theorem calculateGuardScore_sampling_witness :
    guardStep ([defaultLandmarks] : List Landmarks).length =
        ([defaultLandmarks] : List Landmarks).length /
          min 20 ([defaultLandmarks] : List Landmarks).length ∧
      (guardSampleIndices ([defaultLandmarks] : List Landmarks).length
          (guardStep ([defaultLandmarks] : List Landmarks).length)).length =
        (([defaultLandmarks] : List Landmarks).length +
            guardStep ([defaultLandmarks] : List Landmarks).length - 1) /
          guardStep ([defaultLandmarks] : List Landmarks).length ∧
      0 ≤ calculateGuardScore [defaultLandmarks] none ∧
        calculateGuardScore [defaultLandmarks] none ≤ 25 :=
  calculateGuardScore_sampling [defaultLandmarks] none (by simp)

end MuayThai
